import Mathlib

/-!
Verification of the PORE_FACTOR image-analysis tools.

This file gives a shallow embedding, in Lean 4, of the decision-relevant parts
of the repository's Python sources and proves (or refutes) the specification
claims about them.  Numeric slider and geometry values are modelled by exact
rationals; the manual drawing tools, whose perimeters involve square roots, are
modelled over the reals.  External OpenCV routines (blurring, edge detection,
contour extraction, polygon approximation) are not re-implemented: a contour
enters the embedded contour loop as an abstract object carrying exactly the
measurements the Python code takes of it.
-/

/-! ## Kernel-size normalization (src/2_OPUS25_PORE_FACTOR_CANNY.py lines 85-87,
src/2_PORE_FACTOR_CANNY.py lines 45-46 and 59) -/

/-- Python's `int(...)` conversion on a (rational-valued) float: truncation
toward zero. -/
def pyInt (q : ℚ) : ℤ := if q < 0 then ⌈q⌉ else ⌊q⌋

/-- Embeds `max(3, int(v) | 1)`, the kernel-size normalization applied to the
raw `gaussian_k`, `median_k` and `dilation_k` slider values before they are
passed to cv2.GaussianBlur, cv2.medianBlur and np.ones. -/
def normKernel (v : ℚ) : ℤ := max 3 (Int.lor (pyInt v) 1)

/-! ## Contour loop of the edge-based pipelines

The stages before the contour loop (blurs, Canny, threshold, dilation,
cv2.findContours) are external OpenCV calls on pixel arrays; their result, a
list of contours, is the input of the embedded loop.  A contour is abstracted
to the measurements the loop takes of it: its raw perimeter
`cv2.arcLength(cnt, True)` and, for the epsilon value the loop may compute,
the area and perimeter of the approximating polygon
`cv2.approxPolyDP(cnt, epsilon, True)`. -/

/-- Scalar measurements of one approximating polygon: `cv2.contourArea` and
`cv2.arcLength` of the output of `cv2.approxPolyDP`. -/
structure ApproxPoly where
  area : ℚ
  perimeter : ℚ
deriving DecidableEq, Repr

/-- One contour from `cv2.findContours`, abstracted to its raw perimeter and
the approximating polygon produced for a given epsilon argument. -/
structure Contour where
  rawPerimeter : ℚ
  approx : ℚ → ApproxPoly

/-- Parameters consumed by the contour loop of
`PoreAnalyzer._process_image`: the loop reads only `epsilon`, `min_area` and
`min_circ`; the kernel and threshold parameters act in the earlier external
stages that produce the contour list. -/
structure FilterParams where
  epsilon : ℚ
  min_area : ℚ
  min_circ : ℚ
deriving DecidableEq, Repr

/-- Exact rational value of the float64 constant `np.pi`. -/
def npPi : ℚ := 884279719003555 / 281474976710656

/-- One tuple appended to `object_data` by `PoreAnalyzer._process_image`
line 122: `(perimeter, area, circularity, pore_factor)`. -/
structure ObjRecord where
  perimeter : ℚ
  area : ℚ
  circularity : ℚ
  pore_factor : ℚ
deriving DecidableEq, Repr

/-- Embeds `circularity = (4 * np.pi * area) / (perimeter ** 2)` (line 116). -/
def circularityOf (a : ApproxPoly) : ℚ := 4 * npPi * a.area / a.perimeter ^ 2

/-- Embeds the acceptance test of line 118:
`area > p['min_area'] and circularity >= p['min_circ']`. -/
def acceptCond (p : FilterParams) (a : ApproxPoly) : Prop :=
  a.area > p.min_area ∧ circularityOf a ≥ p.min_circ

instance (p : FilterParams) (a : ApproxPoly) : Decidable (acceptCond p a) :=
  inferInstanceAs (Decidable (_ ∧ _))

/-- Embeds the tuple built on lines 121-122, including the redundant
`if area > 0 else 0` ternary guarding the pore factor. -/
def acceptedRecord (a : ApproxPoly) : ObjRecord :=
  ⟨a.perimeter, a.area, circularityOf a,
    if a.area > 0 then a.perimeter ^ 2 / (16 * a.area) else 0⟩

/-- Loop body of `PoreAnalyzer._process_image`
(src/2_OPUS25_PORE_FACTOR_CANNY.py lines 103-122): `none` means the candidate
is skipped by a `continue` or rejected by the filter; `some (a, r)` means the
approximated polygon `a` is drawn filled into the mask and the record `r` is
appended to `object_data`. -/
def processOne (p : FilterParams) (cnt : Contour) : Option (ApproxPoly × ObjRecord) :=
  if cnt.rawPerimeter = 0 then none
  else
    let a := cnt.approx (p.epsilon * cnt.rawPerimeter)
    if a.area = 0 then none
    else if a.perimeter = 0 then none
    else if acceptCond p a then some (a, acceptedRecord a) else none

/-- The whole contour loop of `PoreAnalyzer._process_image`: the first
component collects the polygons drawn filled into `filtered_image`, the
second the accumulated `object_data` list, both in traversal order. -/
def processContours (p : FilterParams) : List Contour → List ApproxPoly × List ObjRecord
  | [] => ([], [])
  | c :: cs =>
    let rest := processContours p cs
    match processOne p c with
    | none => rest
    | some (a, r) => (a :: rest.1, r :: rest.2)

/-- Parameters read by the contour loop of `process_image` in
src/2_PORE_FACTOR_CANNY.py (lines 73-90). -/
structure PlainParams where
  epsilon : ℚ
  min_size : ℚ
  min_circularity : ℚ
deriving DecidableEq, Repr

/-- One tuple appended to `object_data` by src/2_PORE_FACTOR_CANNY.py line 90:
`(perimeter, area, pore_factor)`. -/
structure PlainRecord where
  perimeter : ℚ
  area : ℚ
  pore_factor : ℚ
deriving DecidableEq, Repr

/-- Loop body of `process_image` in src/2_PORE_FACTOR_CANNY.py lines 73-90:
the contour is approximated unconditionally (there is no raw-perimeter guard),
skipped only when the approximated area is zero, and filtered by
`area > min_size and circularity >= min_circularity`. -/
def processOnePlain (p : PlainParams) (cnt : Contour) : Option (ApproxPoly × PlainRecord) :=
  let a := cnt.approx (p.epsilon * cnt.rawPerimeter)
  if a.area = 0 then none
  else if a.area > p.min_size ∧ 4 * npPi * a.area / a.perimeter ^ 2 ≥ p.min_circularity then
    some (a, ⟨a.perimeter, a.area, a.perimeter ^ 2 / (16 * a.area)⟩)
  else none

/-- The whole contour loop of `process_image` in src/2_PORE_FACTOR_CANNY.py:
drawn polygons and accumulated `object_data`. -/
def processContoursPlain (p : PlainParams) :
    List Contour → List ApproxPoly × List PlainRecord
  | [] => ([], [])
  | c :: cs =>
    let rest := processContoursPlain p cs
    match processOnePlain p c with
    | none => rest
    | some (a, r) => (a :: rest.1, r :: rest.2)

/-! ## Tabular export (flush) behavior -/

/-- Tabular-output effect of `PoreAnalyzer._save_and_close`
(src/2_OPUS25_PORE_FACTOR_CANNY.py lines 136-144): the Excel file is written
only when the accumulated `object_data` list is nonempty. -/
def opusSaveTabular (stem : String) (object_data : List ObjRecord) : Option String :=
  if object_data.isEmpty then none else some (stem ++ "_data.xlsx")

/-- Tabular-output effect of `ManualSegmenter._export_results`
(src/3_OPUS25_PORE_FACTOR_DRAW.py lines 186-197): returns without writing any
file when `all_shapes_data` is empty. -/
def drawExportTabular {Entry : Type} (dateStr : String)
    (all_shapes_data : List Entry) : Option String :=
  if all_shapes_data.isEmpty then none
  else some (dateStr ++ "_pore_factor_analysis.xlsx")

/-- Files written by `save_results` in src/2_PORE_FACTOR_CANNY.py lines
95-107: both the processed image and the Excel table are written
unconditionally, whether or not `object_data` is empty. -/
def plainSaveResults (base_name : String) (object_data : List PlainRecord) :
    List (String × List PlainRecord) :=
  [(base_name ++ "_processed.png", []), (base_name ++ ".xlsx", object_data)]

/-! ## Constructor-time input validation -/

/-- Fatal initialization failures distinguished by both tools. -/
inductive InitError
  | missingInputDir
  | noImagesFound
deriving DecidableEq, Repr

/-- Directory-creation and input-validation effects of `PoreAnalyzer.__init__`
(src/2_OPUS25_PORE_FACTOR_CANNY.py lines 21-45): the two output
subdirectories are created with mkdir (lines 29-30) before the input
directory is listed (line 33, raising when it is missing) and before the
no-images check (lines 35-36), so they exist even when initialization fails.
The first component lists the directories created; `imageFiles` stands for
the extension-filtered listing of the input directory. -/
def poreAnalyzerInit (inputDirExists : Bool) (imageFiles : List String) :
    List String × Option InitError :=
  let created := ["processed_images", "data"]
  if !inputDirExists then (created, some .missingInputDir)
  else if imageFiles.isEmpty then (created, some .noImagesFound)
  else (created, none)

/-- Directory-creation and input-validation effects of
`PixelCalibrator.__init__` (src/0_OPUS25_PORE_FACTOR_SCALE.py lines 37-53):
a missing input directory raises before the output directory is created
(line 37 precedes line 40), but an existing-yet-empty input directory is
detected only at lines 52-53, after `os.makedirs(output_dir)` has run. -/
def pixelCalibratorInit (imageDirExists : Bool) (imageFiles : List String) :
    List String × Option InitError :=
  if !imageDirExists then ([], some .missingInputDir)
  else
    let created := ["output_dir"]
    if imageFiles.isEmpty then (created, some .noImagesFound)
    else (created, none)

/-! ## Interactive session: per-image parameter seeding and batch advance -/

/-- The nine tunable parameters of the OPUS analyzer, as held in
`self.params` (the CLI-supplied or default initial values) and as carried by
the nine sliders. -/
structure AnalyzerParams where
  canny_low : ℚ
  canny_high : ℚ
  min_area : ℚ
  min_circ : ℚ
  dilation_k : ℚ
  gaussian_k : ℚ
  median_k : ℚ
  epsilon : ℚ
  binary_thresh : ℚ
deriving DecidableEq, Repr

/-- Names of the nine sliders created by `PoreAnalyzer._create_widgets`. -/
inductive SliderName
  | canny_low
  | canny_high
  | min_area
  | min_circ
  | dilation_k
  | gaussian_k
  | median_k
  | epsilon
  | binary_thresh
deriving DecidableEq, Repr

/-- Updating one slider's current value. -/
def setSlider : SliderName → ℚ → AnalyzerParams → AnalyzerParams
  | .canny_low, v, p => { p with canny_low := v }
  | .canny_high, v, p => { p with canny_high := v }
  | .min_area, v, p => { p with min_area := v }
  | .min_circ, v, p => { p with min_circ := v }
  | .dilation_k, v, p => { p with dilation_k := v }
  | .gaussian_k, v, p => { p with gaussian_k := v }
  | .median_k, v, p => { p with median_k := v }
  | .epsilon, v, p => { p with epsilon := v }
  | .binary_thresh, v, p => { p with binary_thresh := v }

/-- Session events affecting parameter state: starting the interactive window
for the next image (`PoreAnalyzer.run` iteration calling
`_create_interactive_window` and `_create_widgets`, lines 47-58 and 164-174),
and the operator dragging a slider. -/
inductive SessionEvent
  | loadImage
  | setVal (name : SliderName) (v : ℚ)

/-- Parameter-relevant state of a `PoreAnalyzer` session: `params` is
`self.params`, fixed at construction from the CLI and never reassigned;
`sliders` are the current widget values. -/
structure SessionState where
  params : AnalyzerParams
  sliders : AnalyzerParams
deriving DecidableEq, Repr

/-- One session transition: `_create_widgets` re-creates every slider with
`valinit = self.params[...]`, so loading an image resets the presented values
to the construction-time parameters; a drag updates only the dragged
slider. -/
def sessionStep (st : SessionState) : SessionEvent → SessionState
  | .loadImage => { st with sliders := st.params }
  | .setVal n v => { st with sliders := setSlider n v st.sliders }

/-- A whole session starting from CLI parameters `cli`. -/
def runSession (cli : AnalyzerParams) (evts : List SessionEvent) : SessionState :=
  evts.foldl sessionStep { params := cli, sliders := cli }

/-- Batch loop of `PoreAnalyzer.run` (src/2_OPUS25_PORE_FACTOR_CANNY.py lines
47-58): images are visited in sequence order; a file whose `cv2.imread`
returns None produces a warning and a `continue`; a readable file opens the
interactive window.  The result collects the files processed interactively
and the files warned about, in visiting order. -/
def runBatch {Image : Type} (imread : String → Option Image) :
    List String → List String × List String
  | [] => ([], [])
  | f :: fs =>
    let rest := runBatch imread fs
    match imread f with
    | none => (rest.1, f :: rest.2)
    | some _ => (f :: rest.1, rest.2)

/-- One call of `PixelCalibrator._load_next_image`
(src/0_OPUS25_PORE_FACTOR_SCALE.py lines 89-115) on the image files from the
current index on: an unreadable file gets a warning and the function calls
itself directly on the next index (lines 100-104); the first readable file is
displayed, waiting for the operator, and the call returns.  The result is the
displayed file (none when the sequence is exhausted) together with the files
warned about, in visiting order. -/
def loadNextImage {Image : Type} (imread : String → Option Image) :
    List String → Option String × List String
  | [] => (none, [])
  | f :: fs =>
    match imread f with
    | none =>
      let rest := loadNextImage imread fs
      (rest.1, f :: rest.2)
    | some _ => (some f, [])

/-- A whole `PixelCalibrator` image sequence: `_load_next_image` skips
unreadable files with a warning by direct recursion, and for a displayed file
`_save_and_next` (src/0_OPUS25_PORE_FACTOR_SCALE.py lines 150-165) increments
the index and calls `_load_next_image` again, so every file of the sequence is
visited exactly once.  The result collects the measured files and the
warned-about files, in visiting order. -/
def calibratorSession {Image : Type} (imread : String → Option Image) :
    List String → List String × List String
  | [] => ([], [])
  | f :: fs =>
    let rest := calibratorSession imread fs
    match imread f with
    | none => (rest.1, f :: rest.2)
    | some _ => (f :: rest.1, rest.2)

/-! ## Manual polygon-drawing tools

Click coordinates are modelled as exact rationals.  Shapely's
`Polygon(points).length` is the sum of Euclidean distances between
consecutive coordinates of the (already closed) ring, a real number;
`Polygon(points).area` is half the absolute shoelace sum, a rational for
rational coordinates. -/

/-- Euclidean distance between two points, as computed between consecutive
ring coordinates by shapely's `length`. -/
noncomputable def segLen (a b : ℚ × ℚ) : ℝ :=
  Real.sqrt (((a.1 - b.1) ^ 2 + (a.2 - b.2) ^ 2 : ℚ) : ℝ)

/-- Perimeter of a closed point list: sum of consecutive segment lengths
(shapely `Polygon(...).length` on an explicitly closed coordinate list). -/
noncomputable def polyLength : List (ℚ × ℚ) → ℝ
  | a :: b :: rest => segLen a b + polyLength (b :: rest)
  | _ => 0

/-- Signed double area of a closed point list (shoelace sum). -/
def shoelaceSum : List (ℚ × ℚ) → ℚ
  | a :: b :: rest => (a.1 * b.2 - b.1 * a.2) + shoelaceSum (b :: rest)
  | _ => 0

/-- Unsigned polygon area (shapely `Polygon(...).area` on an explicitly
closed coordinate list). -/
def polyArea (pts : List (ℚ × ℚ)) : ℚ := |shoelaceSum pts| / 2

/-- Scaling every point by a factor, as display resizing does to the drawn
coordinates relative to the original image. -/
def scalePts (s : ℚ) (pts : List (ℚ × ℚ)) : List (ℚ × ℚ) :=
  pts.map fun p => (s * p.1, s * p.2)

/-- Perimeter reported by `ManualSegmenter._save_and_close`
(src/3_OPUS25_PORE_FACTOR_DRAW.py line 125): `polygon.length / resize_factor`. -/
noncomputable def reportedPerimeter (s : ℚ) (pts : List (ℚ × ℚ)) : ℝ :=
  polyLength pts / (s : ℝ)

/-- Area reported by `ManualSegmenter._save_and_close` (line 126):
`polygon.area / resize_factor ** 2`. -/
def reportedArea (s : ℚ) (pts : List (ℚ × ℚ)) : ℚ := polyArea pts / s ^ 2

/-- Pore factor reported by `ManualSegmenter._save_and_close` (line 129):
`perimeter ** 2 / (16 * area)` on the already rescaled metrics. -/
noncomputable def reportedPoreFactor (s : ℚ) (pts : List (ℚ × ℚ)) : ℝ :=
  reportedPerimeter s pts ^ 2 / (16 * (reportedArea s pts : ℝ))

/-- One entry of `all_shapes_data` / `shapes_data` in the drawing tools:
`perimeter_px`, `area_px`, `pore_factor` (the constant filename tag is
omitted). -/
structure ShapeEntry where
  perimeter_px : ℝ
  area_px : ℚ
  pore_factor : ℝ

/-- Shape-data accumulation of `ManualSegmenter._save_and_close`
(src/3_OPUS25_PORE_FACTOR_DRAW.py lines 123-135): each drawn polygon yields
an entry only when its rescaled area is strictly positive; the pore-factor
division is evaluated only under that guard. -/
noncomputable def saveShapes (s : ℚ) (shapes : List (List (ℚ × ℚ))) : List ShapeEntry :=
  shapes.filterMap fun pts =>
    if 0 < reportedArea s pts then
      some ⟨reportedPerimeter s pts, reportedArea s pts, reportedPoreFactor s pts⟩
    else none

/-- Drawing-relevant state of a `ManualSegmenter` session. -/
structure SegmenterState where
  current_points : List (ℚ × ℚ)
  shapes_on_current_image : List (List (ℚ × ℚ))
  all_shapes_data : List ShapeEntry

/-- User events of the `ManualSegmenter` tool: placing a vertex
(left-click), closing a shape (right-click), the Clear Shapes button, the
Save and Next button, and loading the next image. -/
inductive SegEvent
  | leftClick (p : ℚ × ℚ)
  | rightClick
  | clearShapes
  | saveAndClose
  | loadImage

/-- One event transition of `ManualSegmenter`
(src/3_OPUS25_PORE_FACTOR_DRAW.py): `_on_click` lines 95-109 (a right-click
closes the shape, appending the first vertex again, only when at least three
vertices have been placed), `_clear_shapes` lines 111-116, `_save_and_close`
lines 118-135, and the per-image reset of `_process_image` lines 63-66. -/
noncomputable def segStep (s : ℚ) (st : SegmenterState) : SegEvent → SegmenterState
  | .leftClick p => { st with current_points := st.current_points ++ [p] }
  | .rightClick =>
      if 3 ≤ st.current_points.length then
        { st with
          shapes_on_current_image := st.shapes_on_current_image ++
            [st.current_points ++ [st.current_points.headI]],
          current_points := [] }
      else st
  | .clearShapes => { st with shapes_on_current_image := [], current_points := [] }
  | .saveAndClose =>
      { st with all_shapes_data :=
          st.all_shapes_data ++ saveShapes s st.shapes_on_current_image }
  | .loadImage => { st with shapes_on_current_image := [], current_points := [] }

/-- A whole `ManualSegmenter` session at resize factor `s`, from the initial
empty state. -/
noncomputable def runSegmenter (s : ℚ) (evts : List SegEvent) : SegmenterState :=
  evts.foldl (segStep s) ⟨[], [], []⟩

/-- Drawing state of the script src/4_OPUS25_PORE_FACTOR_DRAW.py: the global
`points`, `drawing` and `shapes_data` variables. -/
structure Draw4State where
  points : List (ℚ × ℚ)
  drawing : Bool
  shapes_data : List ShapeEntry

/-- Click events handled by `on_click` in src/4_OPUS25_PORE_FACTOR_DRAW.py. -/
inductive Draw4Event
  | leftClick (p : ℚ × ℚ)
  | rightClick

/-- The hard-coded display resize factor of src/4_OPUS25_PORE_FACTOR_DRAW.py
(lines 114-119: images are resized to 25 percent before display, and clicks
are captured in the resized coordinates). -/
def resizeFactor4 : ℚ := 1/4

/-- Embeds `on_click` of src/4_OPUS25_PORE_FACTOR_DRAW.py lines 18-63: a
left-click starts or extends the current shape; a right-click while drawing
closes the shape as soon as more than one vertex exists, and computes
perimeter, area and `pore_factor = perimeter**2/(16*area)` with no guard on
the area and no rescaling of the display coordinates. -/
noncomputable def draw4Step (st : Draw4State) : Draw4Event → Draw4State
  | .leftClick p =>
      { st with points := (if st.drawing then st.points else []) ++ [p], drawing := true }
  | .rightClick =>
      if st.drawing ∧ 1 < st.points.length then
        { points := st.points ++ [st.points.headI],
          drawing := false,
          shapes_data := st.shapes_data ++
            [⟨polyLength (st.points ++ [st.points.headI]),
              polyArea (st.points ++ [st.points.headI]),
              polyLength (st.points ++ [st.points.headI]) ^ 2 /
                (16 * (polyArea (st.points ++ [st.points.headI]) : ℝ))⟩] }
      else st

/-- A whole drawing session of src/4_OPUS25_PORE_FACTOR_DRAW.py from the
initial empty global state. -/
noncomputable def runDraw4 (evts : List Draw4Event) : Draw4State :=
  evts.foldl draw4Step ⟨[], false, []⟩

/-! ## Theorems -/

/-- Bitwise OR with 1 forces the low bit of a two's-complement integer, so the
result is odd for every integer input. -/
theorem lor_one_odd (n : ℤ) : Odd (Int.lor n 1) := by
  cases n with
  | ofNat m =>
      have h : Int.lor (Int.ofNat m) 1 = Int.ofNat (m ||| 1) := rfl
      have hb : Nat.testBit (m ||| 1) 0 = true := by
        rw [Nat.testBit_lor]
        simp
      have h2 : (m ||| 1) % 2 = 1 := by
        have := Nat.testBit_zero (m ||| 1)
        rw [hb] at this
        exact (decide_eq_true_eq.mp this.symm)
      rw [h, Int.odd_iff, Int.ofNat_eq_natCast]
      omega
  | negSucc m =>
      have h : Int.lor (Int.negSucc m) 1 = Int.negSucc (Nat.ldiff m 1) := rfl
      have hb : Nat.testBit (Nat.ldiff m 1) 0 = false := by
        rw [Nat.testBit_ldiff]
        simp
      have h2 : Nat.ldiff m 1 % 2 = 0 := by
        have := Nat.testBit_zero (Nat.ldiff m 1)
        rw [hb] at this
        have h3 := Nat.mod_two_eq_zero_or_one (Nat.ldiff m 1)
        rcases h3 with h3 | h3
        · exact h3
        · rw [h3] at this
          simp at this
      rw [h, Int.negSucc_eq, Int.odd_iff]
      omega

/-- C1: for every raw numeric kernel input (including even, fractional, and
negative values) the normalization `max(3, int(v) | 1)` yields an odd integer
that is at least 3; in particular raw 2 normalizes to 3, raw 4 to 5, and
raw -1 to 3. -/
theorem c1_kernel_normalization :
    (∀ v : ℚ, Odd (normKernel v) ∧ 3 ≤ normKernel v) ∧
      normKernel 2 = 3 ∧ normKernel 4 = 5 ∧ normKernel (-1) = 3 := by
  refine ⟨fun v => ⟨?_, le_max_left _ _⟩, by decide, by decide, by decide⟩
  rcases max_cases (3 : ℤ) (Int.lor (pyInt v) 1) with ⟨h, _⟩ | ⟨h, _⟩ <;>
    rw [normKernel, h]
  · exact ⟨1, by norm_num⟩
  · exact lor_one_odd (pyInt v)

/-! ## Degenerate-geometry guards and the area/circularity filter -/

/-- Any record emitted by the loop body of `PoreAnalyzer._process_image` has
passed the zero-area and zero-perimeter guards. -/
theorem processOne_fields {p : FilterParams} {c : Contour} {x : ApproxPoly × ObjRecord}
    (h : processOne p c = some x) : x.2.perimeter ≠ 0 ∧ x.2.area ≠ 0 := by
  simp only [processOne] at h
  split_ifs at h with h1 h2 h3 h4
  obtain rfl := Option.some.inj h
  exact ⟨h3, h2⟩

/-- Every record in the accumulated `object_data` of the OPUS pipeline carries
a nonzero perimeter and a nonzero area. -/
theorem processContours_records_nonzero (p : FilterParams) (cs : List Contour) :
    ((processContours p cs).2.all fun r => decide (r.perimeter ≠ 0 ∧ r.area ≠ 0)) = true := by
  induction cs with
  | nil => rfl
  | cons c cs ih =>
    unfold processContours
    cases hpo : processOne p c with
    | none => simpa using ih
    | some x =>
      obtain ⟨a, r⟩ := x
      obtain ⟨hp, ha⟩ := processOne_fields hpo
      simp only [List.all_cons, Bool.and_eq_true, decide_eq_true_eq]
      exact ⟨⟨hp, ha⟩, ih⟩

/-- C2 counterexample: the claim asserts that a contour whose raw perimeter is
zero is skipped before polygon approximation and never appears in the returned
object list, citing `process_image` of src/2_PORE_FACTOR_CANNY.py among its
sources; that loop has no raw-perimeter guard, so a zero-raw-perimeter
candidate whose approximating polygon measures nonzero is approximated,
filtered, and counted: here it is the single object found. -/
theorem c2_counterexample :
    (processContoursPlain ⟨1/100, 1, 0⟩
      [{ rawPerimeter := 0, approx := fun _ => ⟨4, 10⟩ }]).2.length = 1 := by
  simp only [processContoursPlain, processOnePlain]
  norm_num [npPi]

/-- C2 (amended): in the OPUS pipeline the claim holds as stated: every
emitted record has nonzero perimeter and area, a contour with zero raw
perimeter contributes nothing (it is skipped before approximation), and a
contour whose approximated area is zero contributes nothing (it is skipped
before the circularity and pore-factor divisions, whose divisors are
therefore nonzero). -/
theorem c2_amended_guards (p : FilterParams) (cs : List Contour) :
    ((processContours p cs).2.all fun r => decide (r.perimeter ≠ 0 ∧ r.area ≠ 0)) = true
    ∧ (∀ (f : ℚ → ApproxPoly) (cs' : List Contour),
        processContours p ({ rawPerimeter := 0, approx := f } :: cs') = processContours p cs')
    ∧ (∀ (rp : ℚ) (f : ℚ → ApproxPoly) (cs' : List Contour),
        (f (p.epsilon * rp)).area = 0 →
        processContours p ({ rawPerimeter := rp, approx := f } :: cs') =
          processContours p cs') := by
  refine ⟨processContours_records_nonzero p cs, fun f cs' => ?_, fun rp f cs' ha0 => ?_⟩
  · have h : processOne p { rawPerimeter := 0, approx := f } = none := by
      simp [processOne]
    simp only [processContours, h]
  · have h : processOne p { rawPerimeter := rp, approx := f } = none := by
      simp only [processOne]
      split_ifs <;> rfl
    simp only [processContours, h]

/-- C2 witness: the amended guard theorem evaluated at concrete inputs. -/
theorem c2_witness :
    ((processContours ⟨1/100, 1, 0⟩
        [{ rawPerimeter := 1, approx := fun _ => ⟨4, 10⟩ }]).2.all
      fun r => decide (r.perimeter ≠ 0 ∧ r.area ≠ 0)) = true
    ∧ processContours ⟨1/100, 1, 0⟩
        [{ rawPerimeter := 0, approx := fun _ => ⟨4, 10⟩ }] =
      processContours ⟨1/100, 1, 0⟩ []
    ∧ processContours ⟨1/100, 1, 0⟩
        [{ rawPerimeter := 1, approx := fun _ => ⟨0, 10⟩ }] =
      processContours ⟨1/100, 1, 0⟩ [] := by
  obtain ⟨h1, h2, h3⟩ :=
    c2_amended_guards ⟨1/100, 1, 0⟩ [{ rawPerimeter := 1, approx := fun _ => ⟨4, 10⟩ }]
  exact ⟨h1, h2 _ [], h3 1 (fun _ => ⟨0, 10⟩) [] rfl⟩

/-- C3: in both edge-based pipelines, a contour candidate that survives the
degenerate-geometry guards is accepted into the result list and its
approximated polygon drawn filled into the mask if and only if its
approximated area strictly exceeds the area threshold and its circularity is
at least the circularity threshold; otherwise it contributes neither a list
entry nor any mask drawing.  The first conjunct covers
`PoreAnalyzer._process_image` (guards: raw perimeter, approximated area,
approximated perimeter), the second `process_image` of
src/2_PORE_FACTOR_CANNY.py (guard: approximated area). -/
theorem c3_filter :
    (∀ (p : FilterParams) (c : Contour) (cs : List Contour),
      c.rawPerimeter ≠ 0 →
      (c.approx (p.epsilon * c.rawPerimeter)).area ≠ 0 →
      (c.approx (p.epsilon * c.rawPerimeter)).perimeter ≠ 0 →
      processContours p (c :: cs) =
        if acceptCond p (c.approx (p.epsilon * c.rawPerimeter)) then
          (c.approx (p.epsilon * c.rawPerimeter) :: (processContours p cs).1,
           acceptedRecord (c.approx (p.epsilon * c.rawPerimeter)) ::
             (processContours p cs).2)
        else processContours p cs)
    ∧ (∀ (q : PlainParams) (c : Contour) (cs : List Contour),
      (c.approx (q.epsilon * c.rawPerimeter)).area ≠ 0 →
      processContoursPlain q (c :: cs) =
        if (c.approx (q.epsilon * c.rawPerimeter)).area > q.min_size ∧
            4 * npPi * (c.approx (q.epsilon * c.rawPerimeter)).area /
              (c.approx (q.epsilon * c.rawPerimeter)).perimeter ^ 2 ≥
              q.min_circularity then
          (c.approx (q.epsilon * c.rawPerimeter) :: (processContoursPlain q cs).1,
           ⟨(c.approx (q.epsilon * c.rawPerimeter)).perimeter,
             (c.approx (q.epsilon * c.rawPerimeter)).area,
             (c.approx (q.epsilon * c.rawPerimeter)).perimeter ^ 2 /
               (16 * (c.approx (q.epsilon * c.rawPerimeter)).area)⟩ ::
             (processContoursPlain q cs).2)
        else processContoursPlain q cs) := by
  constructor
  · intro p c cs h1 h2 h3
    have hpo : processOne p c =
        if acceptCond p (c.approx (p.epsilon * c.rawPerimeter)) then
          some (c.approx (p.epsilon * c.rawPerimeter),
            acceptedRecord (c.approx (p.epsilon * c.rawPerimeter)))
        else none := by
      simp only [processOne, if_neg h1, if_neg h2, if_neg h3]
    by_cases hacc : acceptCond p (c.approx (p.epsilon * c.rawPerimeter))
    · rw [if_pos hacc] at hpo
      simp only [processContours, hpo, if_pos hacc]
    · rw [if_neg hacc] at hpo
      simp only [processContours, hpo, if_neg hacc]
  · intro q c cs h2
    have hpo : processOnePlain q c =
        if (c.approx (q.epsilon * c.rawPerimeter)).area > q.min_size ∧
            4 * npPi * (c.approx (q.epsilon * c.rawPerimeter)).area /
              (c.approx (q.epsilon * c.rawPerimeter)).perimeter ^ 2 ≥
              q.min_circularity then
          some (c.approx (q.epsilon * c.rawPerimeter),
            ⟨(c.approx (q.epsilon * c.rawPerimeter)).perimeter,
              (c.approx (q.epsilon * c.rawPerimeter)).area,
              (c.approx (q.epsilon * c.rawPerimeter)).perimeter ^ 2 /
                (16 * (c.approx (q.epsilon * c.rawPerimeter)).area)⟩)
        else none := by
      simp only [processOnePlain, if_neg h2]
    by_cases hacc : (c.approx (q.epsilon * c.rawPerimeter)).area > q.min_size ∧
        4 * npPi * (c.approx (q.epsilon * c.rawPerimeter)).area /
          (c.approx (q.epsilon * c.rawPerimeter)).perimeter ^ 2 ≥ q.min_circularity
    · rw [if_pos hacc] at hpo
      simp only [processContoursPlain, hpo, if_pos hacc]
    · rw [if_neg hacc] at hpo
      simp only [processContoursPlain, hpo, if_neg hacc]

/-- C3 witness: the filter equivalence of both pipelines evaluated at a
concrete accepted candidate, discharging every guard hypothesis. -/
theorem c3_witness :
    (Contour.rawPerimeter ⟨1, fun _ => ⟨2, 1⟩⟩ ≠ 0) ∧
    ((Contour.approx ⟨1, fun _ => ⟨2, 1⟩⟩ ((1 : ℚ)/100 * 1)).area ≠ 0) ∧
    ((Contour.approx ⟨1, fun _ => ⟨2, 1⟩⟩ ((1 : ℚ)/100 * 1)).perimeter ≠ 0) ∧
    processContours ⟨1/100, 1, 0⟩ [⟨1, fun _ => ⟨2, 1⟩⟩] =
      (if acceptCond ⟨1/100, 1, 0⟩ (Contour.approx ⟨1, fun _ => ⟨2, 1⟩⟩ ((1 : ℚ)/100 * 1)) then
        (Contour.approx ⟨1, fun _ => ⟨2, 1⟩⟩ ((1 : ℚ)/100 * 1) ::
           (processContours ⟨1/100, 1, 0⟩ []).1,
         acceptedRecord (Contour.approx ⟨1, fun _ => ⟨2, 1⟩⟩ ((1 : ℚ)/100 * 1)) ::
           (processContours ⟨1/100, 1, 0⟩ []).2)
      else processContours ⟨1/100, 1, 0⟩ []) ∧
    processContoursPlain ⟨1/100, 1, 0⟩ [⟨1, fun _ => ⟨2, 1⟩⟩] =
      (if (Contour.approx ⟨1, fun _ => ⟨2, 1⟩⟩ ((1 : ℚ)/100 * 1)).area > (1 : ℚ) ∧
          4 * npPi * (Contour.approx ⟨1, fun _ => ⟨2, 1⟩⟩ ((1 : ℚ)/100 * 1)).area /
            (Contour.approx ⟨1, fun _ => ⟨2, 1⟩⟩ ((1 : ℚ)/100 * 1)).perimeter ^ 2 ≥
            (0 : ℚ) then
        (Contour.approx ⟨1, fun _ => ⟨2, 1⟩⟩ ((1 : ℚ)/100 * 1) ::
           (processContoursPlain ⟨1/100, 1, 0⟩ []).1,
         ⟨(Contour.approx ⟨1, fun _ => ⟨2, 1⟩⟩ ((1 : ℚ)/100 * 1)).perimeter,
           (Contour.approx ⟨1, fun _ => ⟨2, 1⟩⟩ ((1 : ℚ)/100 * 1)).area,
           (Contour.approx ⟨1, fun _ => ⟨2, 1⟩⟩ ((1 : ℚ)/100 * 1)).perimeter ^ 2 /
             (16 * (Contour.approx ⟨1, fun _ => ⟨2, 1⟩⟩ ((1 : ℚ)/100 * 1)).area)⟩ ::
           (processContoursPlain ⟨1/100, 1, 0⟩ []).2)
      else processContoursPlain ⟨1/100, 1, 0⟩ []) :=
  ⟨by decide, by decide, by decide,
    c3_filter.1 ⟨1/100, 1, 0⟩ ⟨1, fun _ => ⟨2, 1⟩⟩ [] (by decide) (by decide) (by decide),
    c3_filter.2 ⟨1/100, 1, 0⟩ ⟨1, fun _ => ⟨2, 1⟩⟩ [] (by decide)⟩

/-- Relaxing `min_area` can only turn rejections into acceptances: if the loop
body accepts a contour at threshold `a2`, it accepts the same contour with the
same output at any threshold `a1 ≤ a2` (all other parameters equal). -/
theorem processOne_min_area_mono {eps mc a1 a2 : ℚ} (h : a1 ≤ a2) (c : Contour)
    {x : ApproxPoly × ObjRecord} (hx : processOne ⟨eps, a2, mc⟩ c = some x) :
    processOne ⟨eps, a1, mc⟩ c = some x := by
  simp only [processOne] at hx ⊢
  split_ifs at hx with h1 h2 h3 h4
  rw [if_neg h1, if_neg h2, if_neg h3, if_pos]
  · exact hx
  · obtain ⟨hA, hC⟩ := h4
    exact ⟨lt_of_le_of_lt h hA, hC⟩

/-- C7: with all other parameters held fixed, raising `min_area` from `a1` to
`a2 ≥ a1` never increases the number of objects found by the contour loop. -/
theorem c7_min_area_antitone (cs : List Contour) (eps mc a1 a2 : ℚ) (h : a1 ≤ a2) :
    (processContours ⟨eps, a2, mc⟩ cs).2.length ≤
      (processContours ⟨eps, a1, mc⟩ cs).2.length := by
  induction cs with
  | nil => exact le_refl _
  | cons c cs ih =>
    cases hpo : processOne ⟨eps, a2, mc⟩ c with
    | none =>
      simp only [processContours, hpo]
      cases hpo1 : processOne ⟨eps, a1, mc⟩ c with
      | none => exact ih
      | some y =>
        obtain ⟨a, r⟩ := y
        exact le_trans ih (Nat.le_succ _)
    | some x =>
      obtain ⟨a, r⟩ := x
      have h1 := processOne_min_area_mono h c hpo
      simp only [processContours, hpo, h1]
      exact Nat.succ_le_succ ih

/-- C7 witness: the antitonicity instance at concrete thresholds where the
larger threshold rejects the candidate the smaller accepts. -/
theorem c7_witness :
    (1 : ℚ) ≤ 3 ∧
    (processContours ⟨1/100, 3, 0⟩ [⟨1, fun _ => ⟨2, 1⟩⟩]).2.length ≤
      (processContours ⟨1/100, 1, 0⟩ [⟨1, fun _ => ⟨2, 1⟩⟩]).2.length :=
  ⟨by norm_num, c7_min_area_antitone [⟨1, fun _ => ⟨2, 1⟩⟩] (1/100) 0 1 3 (by norm_num)⟩

/-- C6 counterexample: the claim asserts that an empty accumulated record
list produces no tabular output file, citing `save_results` of
src/2_PORE_FACTOR_CANNY.py among its sources; that function writes the Excel
file unconditionally, so with an empty `object_data` the tabular file
`img.xlsx` is still created (holding only headers). -/
theorem c6_counterexample :
    ("img.xlsx", ([] : List PlainRecord)) ∈ plainSaveResults "img" [] := by
  simp [plainSaveResults]

/-- C6 (amended): the OPUS analyzer's per-image data export and the manual
segmenter's final export are no-ops exactly on the empty accumulator, while
`save_results` of src/2_PORE_FACTOR_CANNY.py writes its image and table
unconditionally. -/
theorem c6_amended :
    (∀ (stem : String) (d : List ObjRecord), opusSaveTabular stem d = none ↔ d = [])
    ∧ (∀ (Entry : Type) (dateStr : String) (d : List Entry),
        drawExportTabular dateStr d = none ↔ d = [])
    ∧ (∀ (base : String) (d : List PlainRecord),
        plainSaveResults base d = [(base ++ "_processed.png", []), (base ++ ".xlsx", d)]) := by
  refine ⟨fun stem d => ?_, fun Entry dateStr d => ?_, fun base d => rfl⟩
  · cases d <;> simp [opusSaveTabular]
  · cases d <;> simp [drawExportTabular]

/-- C5 counterexample: the claim asserts that on missing or empty input the
program exits without creating any output directory; for an existing input
directory with no supported images, `PoreAnalyzer.__init__` raises the fatal
error only after both output subdirectories have been created. -/
theorem c5_counterexample :
    (poreAnalyzerInit true []).2 = some InitError.noImagesFound
    ∧ (poreAnalyzerInit true []).1 ≠ [] := by
  constructor
  · rfl
  · simp [poreAnalyzerInit]

/-- C5 (amended): on missing or empty input both constructors fail before any
image processing and write no files; no output directory is created by the
calibrator in the missing-directory case, but the analyzer creates its two
output subdirectories before either check, and the calibrator creates its
output directory before the empty-listing check. -/
theorem c5_amended (imageFiles : List String) :
    (poreAnalyzerInit false imageFiles =
      (["processed_images", "data"], some InitError.missingInputDir))
    ∧ (imageFiles.isEmpty = true →
        poreAnalyzerInit true imageFiles =
          (["processed_images", "data"], some InitError.noImagesFound))
    ∧ (pixelCalibratorInit false imageFiles = ([], some InitError.missingInputDir))
    ∧ (imageFiles.isEmpty = true →
        pixelCalibratorInit true imageFiles =
          (["output_dir"], some InitError.noImagesFound)) := by
  refine ⟨rfl, fun h => ?_, rfl, fun h => ?_⟩
  · simp [poreAnalyzerInit, h]
  · simp [pixelCalibratorInit, h]

/-- C5 witness: the amended constructor-failure behavior at the empty input
listing and at a missing input directory. -/
theorem c5_witness :
    poreAnalyzerInit false ["a.png"] =
      (["processed_images", "data"], some InitError.missingInputDir)
    ∧ poreAnalyzerInit true [] =
      (["processed_images", "data"], some InitError.noImagesFound)
    ∧ pixelCalibratorInit false ["a.png"] = ([], some InitError.missingInputDir)
    ∧ pixelCalibratorInit true [] = (["output_dir"], some InitError.noImagesFound) :=
  ⟨(c5_amended ["a.png"]).1, (c5_amended []).2.1 rfl,
    (c5_amended ["a.png"]).2.2.1, (c5_amended []).2.2.2 rfl⟩

/-- The construction-time parameter record is never reassigned by any
session event. -/
theorem runSession_params_const (cli : AnalyzerParams) (evts : List SessionEvent) :
    (runSession cli evts).params = cli := by
  suffices h : ∀ (st : SessionState) (es : List SessionEvent),
      (es.foldl sessionStep st).params = st.params by
    exact h _ _
  intro st es
  induction es generalizing st with
  | nil => rfl
  | cons e es ih =>
    rw [List.foldl_cons, ih]
    cases e <;> rfl

/-- C8: whenever an image is loaded, the parameter values initially presented
equal the CLI-supplied (or default) initial values, regardless of any slider
edits made while processing previous images. -/
theorem c8_no_parameter_persistence (cli : AnalyzerParams) (evts : List SessionEvent) :
    (runSession cli (evts ++ [SessionEvent.loadImage])).sliders = cli := by
  have h : runSession cli (evts ++ [SessionEvent.loadImage]) =
      sessionStep (runSession cli evts) SessionEvent.loadImage := by
    rw [runSession, List.foldl_append]
    rfl
  rw [h]
  show (runSession cli evts).params = cli
  exact runSession_params_const cli evts

/-- C9: a read failure on any image only yields a warning and advances to the
next image in sequence order.  In `PoreAnalyzer.run` and across a whole
`PixelCalibrator` session the processed files are exactly the readable ones
and the warned files exactly the unreadable ones, in sequence order, so
readable images after a failure are all still processed and the batch is
never aborted; and a single `PixelCalibrator._load_next_image` call warns
about exactly the unreadable prefix and displays the first readable file. -/
theorem c9_skip_and_continue {Image : Type} (imread : String → Option Image)
    (files : List String) :
    runBatch imread files =
      (files.filter fun f => (imread f).isSome,
       files.filter fun f => (imread f).isNone)
    ∧ calibratorSession imread files =
      (files.filter fun f => (imread f).isSome,
       files.filter fun f => (imread f).isNone)
    ∧ loadNextImage imread files =
      (files.find? fun f => (imread f).isSome,
       files.takeWhile fun f => (imread f).isNone) := by
  refine ⟨?_, ?_, ?_⟩
  · induction files with
    | nil => rfl
    | cons f fs ih =>
      cases h : imread f with
      | none => simp [runBatch, h, ih, List.filter_cons]
      | some img => simp [runBatch, h, ih, List.filter_cons]
  · induction files with
    | nil => rfl
    | cons f fs ih =>
      cases h : imread f with
      | none => simp [calibratorSession, h, ih, List.filter_cons]
      | some img => simp [calibratorSession, h, ih, List.filter_cons]
  · induction files with
    | nil => rfl
    | cons f fs ih =>
      cases h : imread f with
      | none => simp [loadNextImage, h, ih, List.find?_cons, List.takeWhile_cons]
      | some img => simp [loadNextImage, h, List.find?_cons, List.takeWhile_cons]

/-- Scaling both endpoints by a nonnegative factor scales the segment length
by the same factor. -/
theorem segLen_scale (s : ℚ) (hs : 0 ≤ s) (a b : ℚ × ℚ) :
    segLen (s * a.1, s * a.2) (s * b.1, s * b.2) = s * segLen a b := by
  unfold segLen
  have h : ((s * a.1 - s * b.1) ^ 2 + (s * a.2 - s * b.2) ^ 2 : ℚ) =
      s ^ 2 * ((a.1 - b.1) ^ 2 + (a.2 - b.2) ^ 2) := by ring
  rw [h]
  push_cast
  rw [Real.sqrt_mul (by positivity)]
  rw [Real.sqrt_sq (by exact_mod_cast hs)]

/-- Scaling every point by a nonnegative factor scales the ring perimeter by
the same factor. -/
theorem polyLength_scale (s : ℚ) (hs : 0 ≤ s) (pts : List (ℚ × ℚ)) :
    polyLength (scalePts s pts) = s * polyLength pts := by
  induction pts with
  | nil => simp [scalePts, polyLength]
  | cons a rest ih =>
    cases rest with
    | nil => simp [scalePts, polyLength]
    | cons b rest2 =>
      simp only [scalePts, List.map_cons] at ih ⊢
      rw [polyLength, polyLength]
      rw [segLen_scale s hs a b, ih]
      ring

/-- Scaling every point by a factor scales the shoelace sum quadratically. -/
theorem shoelaceSum_scale (s : ℚ) (pts : List (ℚ × ℚ)) :
    shoelaceSum (scalePts s pts) = s ^ 2 * shoelaceSum pts := by
  induction pts with
  | nil => simp [scalePts, shoelaceSum]
  | cons a rest ih =>
    cases rest with
    | nil => simp [scalePts, shoelaceSum]
    | cons b rest2 =>
      simp only [scalePts, List.map_cons] at ih ⊢
      rw [shoelaceSum, shoelaceSum, ih]
      ring

/-- Scaling every point by a factor scales the polygon area quadratically. -/
theorem polyArea_scale (s : ℚ) (pts : List (ℚ × ℚ)) :
    polyArea (scalePts s pts) = s ^ 2 * polyArea pts := by
  rw [polyArea, polyArea, shoelaceSum_scale, abs_mul, abs_of_nonneg (sq_nonneg s)]
  ring

/-- C4 counterexample: the claim asserts that the manual tools report the
display-coordinate area divided by the square of the resize factor, citing
`on_click` of src/4_OPUS25_PORE_FACTOR_DRAW.py among its sources; that script
records display-coordinate metrics with no rescaling, so a drawn square of
display side 4 (display area 16) is recorded with `area_px` 16 instead of the
16 / (1/4)^2 = 256 the claim requires. -/
theorem c4_counterexample :
    ((runDraw4 [.leftClick (0, 0), .leftClick (4, 0), .leftClick (4, 4),
        .leftClick (0, 4), .rightClick]).shapes_data.map fun e => e.area_px) = [16]
    ∧ (16 : ℚ) ≠ 16 / resizeFactor4 ^ 2 := by
  constructor
  · simp only [runDraw4, draw4Step, List.foldl]
    norm_num [polyArea, shoelaceSum, List.headI]
  · norm_num [resizeFactor4]

/-- C4 (amended): in `ManualSegmenter._save_and_close` of
src/3_OPUS25_PORE_FACTOR_DRAW.py the claim holds: the reported perimeter is
the display perimeter divided by the resize factor, the reported area the
display area divided by its square, the reported pore factor is
perimeter squared over 16 times area of the rescaled metrics, and hence for
points captured at display scale `s` the reported metrics equal those of the
unscaled polygon, independent of `s`. -/
theorem c4_amended (s : ℚ) (hs : 0 < s) (pts : List (ℚ × ℚ)) :
    reportedPerimeter s pts = polyLength pts / (s : ℝ)
    ∧ reportedArea s pts = polyArea pts / s ^ 2
    ∧ reportedPoreFactor s pts =
        reportedPerimeter s pts ^ 2 / (16 * (reportedArea s pts : ℝ))
    ∧ reportedPerimeter s (scalePts s pts) = polyLength pts
    ∧ reportedArea s (scalePts s pts) = polyArea pts
    ∧ reportedPoreFactor s (scalePts s pts) =
        polyLength pts ^ 2 / (16 * (polyArea pts : ℝ)) := by
  have hs0 : (s : ℝ) ≠ 0 := by exact_mod_cast hs.ne'
  have h4 : reportedPerimeter s (scalePts s pts) = polyLength pts := by
    rw [reportedPerimeter, polyLength_scale s hs.le, mul_div_cancel_left₀ _ hs0]
  have h5 : reportedArea s (scalePts s pts) = polyArea pts := by
    rw [reportedArea, polyArea_scale]
    field_simp
  refine ⟨rfl, rfl, rfl, h4, h5, ?_⟩
  rw [reportedPoreFactor, h4, h5]

/-- C4 witness: the amended scale-correction law evaluated at resize factor 2
and a concrete closed triangle. -/
theorem c4_witness :
    (0 : ℚ) < 2
    ∧ (reportedPerimeter 2 [((0 : ℚ), (0 : ℚ)), (1, 0), (0, 1), (0, 0)] =
        polyLength [((0 : ℚ), (0 : ℚ)), (1, 0), (0, 1), (0, 0)] / ((2 : ℚ) : ℝ)
      ∧ reportedArea 2 [((0 : ℚ), (0 : ℚ)), (1, 0), (0, 1), (0, 0)] =
        polyArea [((0 : ℚ), (0 : ℚ)), (1, 0), (0, 1), (0, 0)] / (2 : ℚ) ^ 2
      ∧ reportedPoreFactor 2 [((0 : ℚ), (0 : ℚ)), (1, 0), (0, 1), (0, 0)] =
        reportedPerimeter 2 [((0 : ℚ), (0 : ℚ)), (1, 0), (0, 1), (0, 0)] ^ 2 /
          (16 * (reportedArea 2 [((0 : ℚ), (0 : ℚ)), (1, 0), (0, 1), (0, 0)] : ℝ))
      ∧ reportedPerimeter 2 (scalePts 2 [((0 : ℚ), (0 : ℚ)), (1, 0), (0, 1), (0, 0)]) =
        polyLength [((0 : ℚ), (0 : ℚ)), (1, 0), (0, 1), (0, 0)]
      ∧ reportedArea 2 (scalePts 2 [((0 : ℚ), (0 : ℚ)), (1, 0), (0, 1), (0, 0)]) =
        polyArea [((0 : ℚ), (0 : ℚ)), (1, 0), (0, 1), (0, 0)]
      ∧ reportedPoreFactor 2 (scalePts 2 [((0 : ℚ), (0 : ℚ)), (1, 0), (0, 1), (0, 0)]) =
        polyLength [((0 : ℚ), (0 : ℚ)), (1, 0), (0, 1), (0, 0)] ^ 2 /
          (16 * (polyArea [((0 : ℚ), (0 : ℚ)), (1, 0), (0, 1), (0, 0)] : ℝ))) :=
  ⟨by norm_num, c4_amended 2 (by norm_num) _⟩

/-- C10 counterexample: the claim asserts that in the manual drawing tools
the pore-factor division is evaluated only when the closed polygon's area is
strictly positive, citing `on_click` of src/4_OPUS25_PORE_FACTOR_DRAW.py
among its sources; there a right-click closes a shape after only two placed
vertices and computes `pore_factor` unconditionally, so three collinear
vertices produce a recorded shape computation with area exactly 0 and the
division `perimeter**2 / (16*0)` is evaluated (a ZeroDivisionError in
Python). -/
theorem c10_counterexample :
    ((runDraw4 [.leftClick (0, 0), .leftClick (1, 0), .leftClick (2, 0),
        .rightClick]).shapes_data.map fun e => e.area_px) = [0] := by
  simp only [runDraw4, draw4Step, List.foldl]
  norm_num [polyArea, shoelaceSum, List.headI]

/-- Every entry appended by `_save_and_close` has strictly positive area. -/
theorem saveShapes_all_pos (s : ℚ) (shapes : List (List (ℚ × ℚ))) :
    ((saveShapes s shapes).all fun e => decide (0 < e.area_px)) = true := by
  rw [List.all_eq_true]
  intro e he
  simp only [saveShapes, List.mem_filterMap] at he
  obtain ⟨pts, _, hpts⟩ := he
  split_ifs at hpts with hpos
  obtain rfl := Option.some.inj hpts
  simpa using hpos

/-- C10 (amended): in `ManualSegmenter` of src/3_OPUS25_PORE_FACTOR_DRAW.py
the claim holds for every click sequence: a right-click closes a shape only
when at least three vertices have been placed (every stored closed ring has
at least four coordinates), and every recorded entry has strictly positive
area, the pore-factor division being evaluated only under that guard. -/
theorem c10_amended (s : ℚ) (evts : List SegEvent) :
    ((runSegmenter s evts).shapes_on_current_image.all
      fun l => decide (4 ≤ l.length)) = true
    ∧ ((runSegmenter s evts).all_shapes_data.all
      fun e => decide (0 < e.area_px)) = true := by
  suffices h : ∀ st : SegmenterState,
      ((st.shapes_on_current_image.all fun l => decide (4 ≤ l.length)) = true
        ∧ (st.all_shapes_data.all fun e => decide (0 < e.area_px)) = true) →
      ((evts.foldl (segStep s) st).shapes_on_current_image.all
          fun l => decide (4 ≤ l.length)) = true
        ∧ ((evts.foldl (segStep s) st).all_shapes_data.all
          fun e => decide (0 < e.area_px)) = true by
    exact h ⟨[], [], []⟩ ⟨rfl, rfl⟩
  induction evts with
  | nil => exact fun st h => h
  | cons e es ih =>
    intro st hst
    rw [List.foldl_cons]
    refine ih _ ?_
    obtain ⟨h1, h2⟩ := hst
    cases e with
    | leftClick p => exact ⟨h1, h2⟩
    | rightClick =>
      by_cases hlen : 3 ≤ st.current_points.length
      · simp only [segStep, if_pos hlen]
        refine ⟨?_, h2⟩
        rw [List.all_append, h1]
        simp [List.length_append]
        omega
      · simp only [segStep, if_neg hlen]
        exact ⟨h1, h2⟩
    | clearShapes => exact ⟨rfl, h2⟩
    | saveAndClose =>
      refine ⟨h1, ?_⟩
      show ((st.all_shapes_data ++ saveShapes s st.shapes_on_current_image).all
        fun e => decide (0 < e.area_px)) = true
      rw [List.all_append, h2, saveShapes_all_pos]
      rfl
    | loadImage => exact ⟨rfl, h2⟩
